import Mathlib

/-!
# Verification of the DynamicRecord pattern

Shallow embedding of the typed key-value record accessor pattern from the
repository's snippets (`src/05/main.go`, `src/06/main.go`, `src/07/main.go`):
a `map[string]interface{}` holding string / int / float64 values, a comma-ok
type assertion used as a narrowing read, and a read-narrow-modify-write
increment of an integer field, which on a failed assertion terminates with
the fatal message `could not assert value to int` before any write.
-/

set_option autoImplicit false

/-- A value stored in the heterogeneous record: the snippets store Go
`string`, `int` and `float64` values in a `map[string]interface{}`.
The inert `float64` literal `167.64` is modelled by the rational it denotes
(no float arithmetic occurs anywhere in the snippets). -/
inductive Value where
  | str : String → Value
  | int : Int → Value
  | float : Rat → Value
  deriving DecidableEq, Repr

/-- Runtime type tags of the supported value kinds, the `T` of a Go type
assertion `v.(T)` for the three types the snippets store. -/
inductive TypeTag where
  | tString : TypeTag
  | tInt : TypeTag
  | tFloat : TypeTag
  deriving DecidableEq, Repr

/-- The runtime type of a stored value. -/
def typeOf : Value → TypeTag
  | .str _ => .tString
  | .int _ => .tInt
  | .float _ => .tFloat

/-- The Go zero value of each supported type, produced by a failed type
assertion `v, ok := x.(T)` (`v` is `T`'s zero value when `ok` is false). -/
def zeroValue : TypeTag → Value
  | .tString => .str ""
  | .tInt => .int 0
  | .tFloat => .float 0

/-- `DynamicRecord` is the `map[string]interface{}` of the snippets,
modelled as an association list of key/value bindings. -/
abbrev DynamicRecord := List (String × Value)

namespace DynamicRecord

/-- Map lookup `m[k]`: the value bound to `k`, or `none` when absent
(a Go map read of an absent key yields the zero `interface{}`, i.e. `nil`). -/
def lookup : DynamicRecord → String → Option Value
  | [], _ => none
  | (k2, v) :: rest, k => if k2 = k then some v else lookup rest k

/-- Map assignment `m[k] = v`: overwrites the binding of `k` in place, or
adds a fresh binding when `k` is absent. -/
def set : DynamicRecord → String → Value → DynamicRecord
  | [], k, v => [(k, v)]
  | (k2, v2) :: rest, k, v =>
      if k2 = k then (k, v) :: rest else (k2, v2) :: set rest k v

/-- The comma-ok integer type assertion `n, ok := x.(int)` applied to the
result of a map read: yields the stored integer with `ok = true`, and the
zero value `0` with `ok = false` when the key was absent (`nil` interface)
or bound to a value of another type (`src/05/main.go:23`,
`src/07/main.go:12`). -/
def assertInt : Option Value → Int × Bool
  | some (.int n) => (n, true)
  | _ => (0, false)

/-- The general typed read of the spec, `getTyped(key, expectedType)`:
the comma-ok type assertion `v, ok := m[key].(T)` for any of the three
supported type tags. Absent key or mismatched runtime type yield the tag's
zero value and `ok = false`; a match yields the stored value and
`ok = true`. -/
def getTyped (r : DynamicRecord) (k : String) (t : TypeTag) : Value × Bool :=
  match lookup r k with
  | some v => if typeOf v = t then (v, true) else (zeroValue t, false)
  | none => (zeroValue t, false)

/-- The fatal message of `src/05/main.go:25` and `src/07/main.go:14`. -/
def assertFailMsg : String :=
  "could not assert value to int"

/-- The read-narrow-modify-write flow of `src/07/main.go:12-18` (identical
in `src/05/main.go:23-29`), as a function of the record and the key:

    age, ok := person[key].(int)
    if !ok { log.Fatal("could not assert value to int"); return }
    person[key] = age + 1

The result is the record after the call paired with the fatal message when
the narrowing failed (`log.Fatal` prints the message and exits before any
write, so the record is returned unmodified in that case). -/
def incrementIntField (r : DynamicRecord) (k : String) : DynamicRecord × Option String :=
  let p := assertInt (lookup r k)
  if p.2 then (set r k (.int (p.1 + 1)), none)
  else (r, some assertFailMsg)

/-- The example record of `src/05/main.go:12-14` and `src/07/main.go:8-10`:
`{name:"Alice", age:21, height:167.64}`, built by three map assignments on
an empty map. -/
def person : DynamicRecord :=
  set (set (set [] "name" (.str "Alice")) "age" (.int 21)) "height" (.float (mkRat 16764 100))

/-! ## Printed representation (`fmt.Printf("%+v", person)` / `log.Printf`)

Go's `fmt` renders a `map[string]interface{}` as `map[k1:v1 k2:v2 ...]`
with each value printed in its default format; `src/07/main.go:23` records
the observed output `map[age:22 height:167.64 name:Alice]` (`fmt` emits the
keys of a string-keyed map in sorted order). -/

/-- Decimal digits of a proper fraction `n / d`, emitted until the
remainder vanishes; `fuel` bounds the recursion. -/
def fracDigits : Nat → Nat → Nat → String
  | 0, _, _ => ""
  | _ + 1, 0, _ => ""
  | fuel + 1, n, d =>
      let n10 := n * 10
      toString (n10 / d) ++ fracDigits fuel (n10 % d) d

/-- Decimal rendering of a rational, matching Go's shortest decimal output
for the inert float literals of the snippets (e.g. `167.64`). -/
def renderRat (q : Rat) : String :=
  let sign := if q < 0 then "-" else ""
  let n := q.num.natAbs
  let d := q.den
  if n % d = 0 then sign ++ toString (n / d)
  else sign ++ toString (n / d) ++ "." ++ fracDigits 32 (n % d) d

/-- Default `fmt` rendering of a stored value: strings unquoted, integers
in decimal, floats in shortest decimal form. -/
def renderValue : Value → String
  | .str s => s
  | .int n => toString n
  | .float q => renderRat q

/-- One `key:value` item of the printed map representation. -/
def pairString (p : String × Value) : String :=
  p.1 ++ ":" ++ renderValue p.2

/-- Lexicographic order on character lists by code point, the string order
`fmt` sorts map keys with. -/
def charsLt : List Char → List Char → Bool
  | [], [] => false
  | [], _ :: _ => true
  | _ :: _, [] => false
  | a :: as, b :: bs =>
      if a.toNat < b.toNat then true
      else if b.toNat < a.toNat then false
      else charsLt as bs

/-- Lexicographic order on strings. -/
def keyLt (a b : String) : Bool :=
  charsLt a.data b.data

/-- Insert a binding into a key-sorted list of bindings, keeping it sorted. -/
def insertSorted (p : String × Value) : List (String × Value) → List (String × Value)
  | [] => [p]
  | q :: rest => if keyLt p.1 q.1 then p :: q :: rest else q :: insertSorted p rest

/-- Sort the record's bindings by key, as Go's `fmt` does when printing a
string-keyed map. -/
def sortByKey : List (String × Value) → List (String × Value)
  | [] => []
  | p :: rest => insertSorted p (sortByKey rest)

/-- The full printed representation `map[k1:v1 k2:v2 ...]` produced by
`fmt.Printf("%+v", m)` on the record. -/
def renderRecord (r : DynamicRecord) : String :=
  "map[" ++ String.intercalate " " ((sortByKey r).map pairString) ++ "]"

/-! ## Basic lemmas about `lookup` and `set` -/

theorem lookup_set_self (r : DynamicRecord) (k : String) (v : Value) :
    lookup (set r k v) k = some v := by
  induction r with
  | nil => simp [set, lookup]
  | cons p rest ih =>
      obtain ⟨pk, pv⟩ := p
      by_cases h : pk = k
      · simp [set, h, lookup]
      · simp [set, h, lookup, ih]

theorem lookup_set_ne (r : DynamicRecord) (k k2 : String) (v : Value)
    (h : k2 ≠ k) : lookup (set r k v) k2 = lookup r k2 := by
  induction r with
  | nil => simp [set, lookup, Ne.symm h]
  | cons p rest ih =>
      obtain ⟨pk, pv⟩ := p
      by_cases hp : pk = k
      · simp [set, hp, lookup, Ne.symm h]
      · simp [set, hp, lookup, ih]

theorem keys_set_of_mem (r : DynamicRecord) (k : String) (v w : Value)
    (h : lookup r k = some w) :
    (set r k v).map Prod.fst = r.map Prod.fst := by
  induction r with
  | nil => simp [lookup] at h
  | cons p rest ih =>
      obtain ⟨pk, pv⟩ := p
      by_cases hp : pk = k
      · simp [set, hp]
      · simp [lookup, hp] at h
        simp [set, hp, ih h]

theorem insertSorted_perm (p : String × Value) (l : List (String × Value)) :
    (insertSorted p l).Perm (p :: l) := by
  induction l with
  | nil => simp [insertSorted]
  | cons q rest ih =>
      by_cases h : keyLt p.1 q.1 = true
      · simp [insertSorted, h]
      · simp only [insertSorted, if_neg h]
        exact (ih.cons q).trans (List.Perm.swap p q rest)

theorem sortByKey_perm (l : List (String × Value)) : (sortByKey l).Perm l := by
  induction l with
  | nil => simp [sortByKey]
  | cons p rest ih =>
      simp only [sortByKey]
      exact (insertSorted_perm p (sortByKey rest)).trans (ih.cons p)

/-! ## Claims -/

/-- C1: on any record binding `"age"` to the integer 21, `incrementIntField "age"`
succeeds (no fatal error), the result binds `"age"` to the integer 22, and
every other key is bound exactly as before the call. -/
theorem incrementIntField_age21 (r : DynamicRecord)
    (h : lookup r "age" = some (.int 21)) :
    (incrementIntField r "age").2 = none ∧
    lookup (incrementIntField r "age").1 "age" = some (.int 22) ∧
    ∀ k, k ≠ "age" → lookup (incrementIntField r "age").1 k = lookup r k := by
  refine ⟨?_, ?_, ?_⟩
  · simp [incrementIntField, h, assertInt]
  · simp [incrementIntField, h, assertInt, lookup_set_self]
  · intro k hk
    simp [incrementIntField, h, assertInt, lookup_set_ne _ _ _ _ hk]

/-- Witness for C1 at the example record `{name:"Alice", age:21, height:167.64}`
of `src/07/main.go`. -/
theorem incrementIntField_age21_example :
    lookup person "age" = some (.int 21) ∧
    (incrementIntField person "age").2 = none ∧
    lookup (incrementIntField person "age").1 "age" = some (.int 22) ∧
    lookup (incrementIntField person "age").1 "name" = lookup person "name" ∧
    lookup (incrementIntField person "age").1 "height" = lookup person "height" := by
  obtain ⟨h1, h2, h3⟩ := incrementIntField_age21 person (by decide)
  exact ⟨by decide, h1, h2, h3 "name" (by decide), h3 "height" (by decide)⟩

/-- C2: insertion followed by a typed read with the matching type tag
round-trips the stored value: after `set k v`, `getTyped k (typeOf v)`
returns `(v, true)`, on any record. -/
theorem getTyped_set_roundtrip (r : DynamicRecord) (k : String) (v : Value) :
    getTyped (set r k v) k (typeOf v) = (v, true) := by
  simp [getTyped, lookup_set_self]

/-- C3: on any record binding the key to a string value, `incrementIntField`
fails at the narrowing step (the spec's `TypeMismatch` case, reported by the
snippet as the fatal message `could not assert value to int`) and the record
after the call is identical to the record before it. -/
theorem incrementIntField_type_mismatch (r : DynamicRecord) (k s : String)
    (h : lookup r k = some (.str s)) :
    incrementIntField r k = (r, some assertFailMsg) := by
  simp [incrementIntField, h, assertInt]

/-- Witness for C3 at a record binding `"age"` to the string `"21"`. -/
theorem incrementIntField_type_mismatch_example :
    lookup [("age", Value.str "21")] "age" = some (.str "21") ∧
    incrementIntField [("age", Value.str "21")] "age"
      = ([("age", Value.str "21")], some assertFailMsg) :=
  ⟨by decide, incrementIntField_type_mismatch [("age", Value.str "21")] "age" "21" (by decide)⟩

/-- C4 (amended): on any record with no binding for the key,
`incrementIntField` fails at the narrowing step (the spec's `Missing` case)
and the record after the call is identical to the record before it; the
implementation reports this failure with the same fatal message as the
`TypeMismatch` case, so the two are not distinguishable by the caller. -/
theorem incrementIntField_missing (r : DynamicRecord) (k : String)
    (h : lookup r k = none) :
    incrementIntField r k = (r, some assertFailMsg) := by
  simp [incrementIntField, h, assertInt]

/-- Witness for C4 at a record with no `"age"` key. -/
theorem incrementIntField_missing_example :
    lookup [("name", Value.str "Alice")] "age" = none ∧
    incrementIntField [("name", Value.str "Alice")] "age"
      = ([("name", Value.str "Alice")], some assertFailMsg) :=
  ⟨by decide, incrementIntField_missing [("name", Value.str "Alice")] "age" (by decide)⟩

/-- C4 counterexample to distinguishability: the failure produced on a
record with no `"age"` key equals the failure produced on a record whose
`"age"` is a string — both are the single fatal message
`could not assert value to int`, so `Missing` is not distinguishable from
`TypeMismatch` in the implementation. -/
theorem missing_error_not_distinguishable :
    (incrementIntField [("name", Value.str "Alice")] "age").2
      = (incrementIntField [("age", Value.str "21")] "age").2 ∧
    (incrementIntField [("name", Value.str "Alice")] "age").2 = some assertFailMsg := by
  exact ⟨by decide, by decide⟩

/-- C5: a typed read with a tag different from the stored value's runtime
type returns `ok = false` and only the tag's zero value (no stored value is
returned as valid, no error is raised — the function totally returns). -/
theorem getTyped_wrong_type (r : DynamicRecord) (k : String) (v : Value) (t : TypeTag)
    (hv : lookup r k = some v) (ht : typeOf v ≠ t) :
    getTyped r k t = (zeroValue t, false) := by
  simp [getTyped, hv, ht]

/-- Witness for C5: reading `"age"` (an integer) with the string tag. -/
theorem getTyped_wrong_type_example :
    lookup person "age" = some (.int 21) ∧
    typeOf (Value.int 21) ≠ TypeTag.tString ∧
    getTyped person "age" .tString = (zeroValue .tString, false) :=
  ⟨by decide, by decide,
    getTyped_wrong_type person "age" (Value.int 21) .tString (by decide) (by decide)⟩

/-- C6: a typed read of a key absent from the record returns `ok = false`
for every type tag. -/
theorem getTyped_missing (r : DynamicRecord) (k : String) (t : TypeTag)
    (h : lookup r k = none) :
    getTyped r k t = (zeroValue t, false) := by
  simp [getTyped, h]

/-- Witness for C6: reading the never-inserted key `"weight"`. -/
theorem getTyped_missing_example :
    lookup person "weight" = none ∧
    getTyped person "weight" .tInt = (zeroValue .tInt, false) :=
  ⟨by decide, getTyped_missing person "weight" .tInt (by decide)⟩

/-- C7: whenever the narrowing step fails (`ok = false` from the comma-ok
assertion, covering both the absent-key and wrong-type cases), the enclosing
operation aborts at that step with the fatal message: the record is returned
exactly as it was, so the arithmetic and the write are never reached. -/
theorem incrementIntField_aborts_on_narrow_failure (r : DynamicRecord) (k : String)
    (h : (assertInt (lookup r k)).2 = false) :
    incrementIntField r k = (r, some assertFailMsg) := by
  simp [incrementIntField, h]

/-- Witness for C7 at the empty record. -/
theorem incrementIntField_aborts_example :
    (assertInt (lookup [] "age")).2 = false ∧
    incrementIntField [] "age" = ([], some assertFailMsg) :=
  ⟨by decide, incrementIntField_aborts_on_narrow_failure [] "age" (by decide)⟩

/-- C8: the printed representation is a single bracketed block of
`key:value` items, separated by single spaces, whose items are exactly the
record's bindings in some implementation-chosen order (a permutation of the
record); on the end-to-end example of `src/07/main.go` it is the output
recorded in the source, `map[age:22 height:167.64 name:Alice]`. -/
theorem renderRecord_format :
    (∀ r : DynamicRecord, ∃ ps : List (String × Value), ps.Perm r ∧
        renderRecord r = "map[" ++ String.intercalate " " (ps.map pairString) ++ "]") ∧
    renderRecord (incrementIntField person "age").1
      = "map[age:22 height:167.64 name:Alice]" :=
  ⟨fun r => ⟨sortByKey r, sortByKey_perm r, rfl⟩, by decide⟩

/-- C9: the implementation's two narrowing-failure causes are
observationally identical: the assertion on an absent key and the assertion
on a present key of non-integer type both yield `ok = false` with the zero
value, and `incrementIntField` produces the very same fatal message in both
cases, so the caller cannot tell `Missing` apart from `TypeMismatch`. -/
theorem narrow_failures_identical (r1 r2 : DynamicRecord) (k1 k2 : String) (v : Value)
    (h1 : lookup r1 k1 = none) (h2 : lookup r2 k2 = some v)
    (hv : typeOf v ≠ .tInt) :
    assertInt (lookup r1 k1) = (0, false) ∧
    assertInt (lookup r2 k2) = (0, false) ∧
    (incrementIntField r1 k1).2 = some assertFailMsg ∧
    (incrementIntField r2 k2).2 = (incrementIntField r1 k1).2 := by
  have ha : assertInt (some v) = (0, false) := by
    cases v with
    | str s => rfl
    | int n => exact absurd rfl hv
    | float q => rfl
  refine ⟨by simp [h1, assertInt], by simp [h2, ha], ?_, ?_⟩
  · simp [incrementIntField, h1, assertInt]
  · have hr2 : incrementIntField r2 k2 = (r2, some assertFailMsg) := by
      simp only [incrementIntField, h2, ha]
      simp
    have hr1 : incrementIntField r1 k1 = (r1, some assertFailMsg) := by
      simp [incrementIntField, h1, assertInt]
    rw [hr1, hr2]

/-- Witness for C9: absent `"age"` versus `"age"` bound to the string
`"21"`. -/
theorem narrow_failures_identical_example :
    lookup [("name", Value.str "Alice")] "age" = none ∧
    lookup [("age", Value.str "21")] "age" = some (.str "21") ∧
    (incrementIntField [("name", Value.str "Alice")] "age").2 = some assertFailMsg ∧
    (incrementIntField [("age", Value.str "21")] "age").2
      = (incrementIntField [("name", Value.str "Alice")] "age").2 := by
  obtain ⟨_, _, h3, h4⟩ :=
    narrow_failures_identical [("name", Value.str "Alice")] [("age", Value.str "21")]
      "age" "age" (Value.str "21") (by decide) (by decide) (by decide)
  exact ⟨by decide, by decide, h3, h4⟩

/-- C10: `incrementIntField` preserves the record's key sequence in every
outcome: on success it overwrites in place under the key it read, and on
failure it writes nothing, so the keys after the call equal the keys
before it. -/
theorem incrementIntField_preserves_keys (r : DynamicRecord) (k : String) :
    ((incrementIntField r k).1).map Prod.fst = r.map Prod.fst := by
  cases hl : lookup r k with
  | none => simp [incrementIntField, hl, assertInt]
  | some v =>
      cases v with
      | str s => simp [incrementIntField, hl, assertInt]
      | int n =>
          simp only [incrementIntField, hl, assertInt, if_pos]
          exact keys_set_of_mem r k (.int (n + 1)) (.int n) hl
      | float q => simp [incrementIntField, hl, assertInt]

end DynamicRecord
